import Mathlib

set_option linter.unusedVariables false

/-!
Verification development for the zk-Kyc repository.

The repository has three executable layers relevant to the checked claims:

* `contracts` — the Solidity registry `ZkKYCRegistry` (nullifier ledger,
  issuer registry, KYC status store);
* `backend/api/verificationService.js` — the off-chain `VerificationService`
  class (credential issuance, proof generation, verification, revocation);
* `backend/api/proofServer.js` — the Express endpoints for proof generation
  and verification backed by a shared in-memory map.

Each layer is embedded shallowly below: contract storage becomes a record of
finitely-updated functions, JavaScript `Map`s become association lists with
the same set/get semantics, `require`/`throw` becomes `Except String`, and
the ambient JavaScript environment (Date.now, the calendar date, Math.random,
crypto.randomBytes) becomes an explicit `World` record threaded into every
call that reads it.  Node crypto sha256 hex digests are computed by a full
executable SHA-256 over `Nat`, so concrete scenarios evaluate to the very
strings the JavaScript code would produce.
-/

namespace Sha256

/-- Truncate to a 32-bit word. -/
def w32 (x : Nat) : Nat := x % 4294967296

/-- Right rotation of a 32-bit word. -/
def rotr (n x : Nat) : Nat := w32 ((x >>> n) ||| (x <<< (32 - n)))

/-- The 64 SHA-256 round constants of FIPS 180-4, in decimal. -/
def K : List Nat :=
  [1116352408, 1899447441, 3049323471, 3921009573, 961987163,
   1508970993, 2453635748, 2870763221, 3624381080, 310598401,
   607225278, 1426881987, 1925078388, 2162078206, 2614888103,
   3248222580, 3835390401, 4022224774, 264347078, 604807628,
   770255983, 1249150122, 1555081692, 1996064986, 2554220882,
   2821834349, 2952996808, 3210313671, 3336571891, 3584528711,
   113926993, 338241895, 666307205, 773529912, 1294757372,
   1396182291, 1695183700, 1986661051, 2177026350, 2456956037,
   2730485921, 2820302411, 3259730800, 3345764771, 3516065817,
   3600352804, 4094571909, 275423344, 430227734, 506948616,
   659060556, 883997877, 958139571, 1322822218, 1537002063,
   1747873779, 1955562222, 2024104815, 2227730452, 2361852424,
   2428436474, 2756734187, 3204031479, 3329325298]

/-- Big-endian byte rendering of `v` on `n` bytes. -/
def bytesBE (n v : Nat) : List Nat :=
  (List.range n).map (fun i => (v >>> (8 * (n - 1 - i))) % 256)

/-- SHA-256 padding: append 0x80, zeros, then the 64-bit big-endian bit length. -/
def pad (msg : List Nat) : List Nat :=
  let len := msg.length
  let zeros := (119 - len % 64) % 64
  msg ++ [0x80] ++ List.replicate zeros 0 ++ bytesBE 8 (len * 8)

/-- Combine consecutive groups of 4 bytes into big-endian 32-bit words. -/
def toWords : List Nat → List Nat
  | a :: b :: c :: d :: rest => (((a * 256 + b) * 256 + c) * 256 + d) :: toWords rest
  | _ => []

def smallSigma0 (x : Nat) : Nat := w32 ((rotr 7 x) ^^^ (rotr 18 x) ^^^ (x >>> 3))
def smallSigma1 (x : Nat) : Nat := w32 ((rotr 17 x) ^^^ (rotr 19 x) ^^^ (x >>> 10))
def bigSigma0 (x : Nat) : Nat := w32 ((rotr 2 x) ^^^ (rotr 13 x) ^^^ (rotr 22 x))
def bigSigma1 (x : Nat) : Nat := w32 ((rotr 6 x) ^^^ (rotr 11 x) ^^^ (rotr 25 x))
def ch (x y z : Nat) : Nat := w32 ((x &&& y) ^^^ ((x ^^^ 0xffffffff) &&& z))
def maj (x y z : Nat) : Nat := w32 ((x &&& y) ^^^ (x &&& z) ^^^ (y &&& z))

/-- Message-schedule extension, keeping the schedule reversed (latest word first). -/
def extendRev : Nat → List Nat → List Nat
  | 0, acc => acc
  | n + 1, acc =>
      let x := w32 (smallSigma1 (acc.getD 1 0) + acc.getD 6 0 +
                    smallSigma0 (acc.getD 14 0) + acc.getD 15 0)
      extendRev n (x :: acc)

/-- The eight working registers of the compression function. -/
structure Regs where
  a : Nat
  b : Nat
  c : Nat
  d : Nat
  e : Nat
  f : Nat
  g : Nat
  h : Nat

/-- The SHA-256 initial hash value of FIPS 180-4, in decimal. -/
def initRegs : Regs :=
  ⟨1779033703, 3144134277, 1013904242, 2773480762,
   1359893119, 2600822924, 528734635, 1541459225⟩

/-- One round of the compression function; `kw` is the round constant paired
with the schedule word. -/
def round (s : Regs) (kw : Nat × Nat) : Regs :=
  let t1 := w32 (s.h + bigSigma1 s.e + ch s.e s.f s.g + kw.1 + kw.2)
  let t2 := w32 (bigSigma0 s.a + maj s.a s.b s.c)
  ⟨w32 (t1 + t2), s.a, s.b, s.c, w32 (s.d + t1), s.e, s.f, s.g⟩

def addRegs (x y : Regs) : Regs :=
  ⟨w32 (x.a + y.a), w32 (x.b + y.b), w32 (x.c + y.c), w32 (x.d + y.d),
   w32 (x.e + y.e), w32 (x.f + y.f), w32 (x.g + y.g), w32 (x.h + y.h)⟩

/-- Compress one 64-byte block into the running state. -/
def compressBlock (h : Regs) (block : List Nat) : Regs :=
  let w16 := toWords block
  let w := (extendRev 48 w16.reverse).reverse
  addRegs h ((K.zip w).foldl round h)

/-- Process `n` consecutive 64-byte blocks. -/
def processAux : Nat → Regs → List Nat → Regs
  | 0, h, _ => h
  | n + 1, h, bytes => processAux n (compressBlock h (bytes.take 64)) (bytes.drop 64)

/-- SHA-256 digest (32 bytes) of a byte string. -/
def sha256 (msg : List Nat) : List Nat :=
  let p := pad msg
  let final := processAux (p.length / 64) initRegs p
  List.flatten ([final.a, final.b, final.c, final.d,
                 final.e, final.f, final.g, final.h].map (bytesBE 4))

def hexDigit (n : Nat) : Char := if n < 10 then Char.ofNat (48 + n) else Char.ofNat (87 + n)

def byteHex (b : Nat) : List Char := [hexDigit (b / 16), hexDigit (b % 16)]

/-- The UTF-8 bytes of an ASCII string (every string hashed by the repository
is ASCII, so this is the byte sequence Node crypto receives). -/
def strBytes (s : String) : List Nat := s.toList.map Char.toNat

/-- Lower-case hex digest of a string, exactly as the Node crypto call chain
createHash, update, digest with hex encoding returns it. -/
def sha256hex (s : String) : String := String.mk ((sha256 (strBytes s)).flatMap byteHex)

end Sha256

namespace Registry

/-!
Embedding of `ZkKYCRegistry` (contracts, src/unnamed/part_000).

Solidity `mapping`s become functions out of `Nat` (addresses and `bytes32`
values are both embedded as `Nat`; a `mapping` read at an unwritten key
returns the zero value, which the functions start from).  `require` failures
become `Except.error` carrying the revert string; a reverted call leaves the
pre-call state in force, which the step function `exec` below makes explicit.
`msg.sender` and `block.timestamp` form the call environment `Env`.
-/

/-- The per-user KYC record of the contract. -/
structure KYCStatus where
  userAddress : Nat
  verifiedAt : Nat
  expiryDate : Nat
  credentialRoot : Nat
  isActive : Bool
deriving DecidableEq

/-- The Solidity zero value of `KYCStatus`, read at unwritten keys. -/
def KYCStatus.zero : KYCStatus := ⟨0, 0, 0, 0, false⟩

/-- Contract storage. -/
structure State where
  trustedIssuers : Nat → Bool
  kycStatus : Nat → KYCStatus
  nullifiers : Nat → Bool
  admin : Nat

/-- Point update of a map embedded as a function. -/
def upd {α : Type} (f : Nat → α) (k : Nat) (v : α) : Nat → α :=
  fun a => if a = k then v else f a

/-- Call environment: `msg.sender` and `block.timestamp`. -/
structure Env where
  sender : Nat
  timestamp : Nat
deriving DecidableEq

/-- The constructor: empty mappings, `admin = msg.sender`. -/
def deploy (deployer : Nat) : State :=
  ⟨fun _ => false, fun _ => KYCStatus.zero, fun _ => false, deployer⟩

/-- addTrustedIssuer, guarded by the onlyAdmin modifier. -/
def addTrustedIssuer (s : State) (env : Env) (issuer : Nat) : Except String State :=
  if env.sender = s.admin then
    .ok { s with trustedIssuers := upd s.trustedIssuers issuer true }
  else .error "Only admin"

/-- removeTrustedIssuer, guarded by the onlyAdmin modifier. -/
def removeTrustedIssuer (s : State) (env : Env) (issuer : Nat) : Except String State :=
  if env.sender = s.admin then
    .ok { s with trustedIssuers := upd s.trustedIssuers issuer false }
  else .error "Only admin"

/-- registerKYC, guarded by the onlyTrustedIssuer modifier. -/
def registerKYC (s : State) (env : Env) (user expiryDate credentialRoot : Nat) :
    Except String State :=
  if s.trustedIssuers env.sender then
    .ok { s with kycStatus := upd s.kycStatus user (KYCStatus.mk user env.timestamp expiryDate credentialRoot true) }
  else .error "Not trusted issuer"

/-- The placeholder internal proof check of the contract: nonempty proof
bytes and nonzero nullifier and credential root. -/
def verifyZKProof (proof : List Nat) (nullifier credentialRoot : Nat) : Bool :=
  decide (0 < proof.length) && decide (nullifier ≠ 0) && decide (credentialRoot ≠ 0)

/-- verifyProof: reject a consumed nullifier, check the proof, then mark the
nullifier consumed and return true. -/
def verifyProof (s : State) (env : Env) (proof : List Nat) (nullifier credentialRoot : Nat) :
    Except String (State × Bool) :=
  if s.nullifiers nullifier then .error "Proof already used"
  else if verifyZKProof proof nullifier credentialRoot then
    .ok ({ s with nullifiers := upd s.nullifiers nullifier true }, true)
  else .error "Invalid proof"

/-- hasValidKYC: active and expiry strictly in the future; a view, so it
returns only a Bool. -/
def hasValidKYC (s : State) (env : Env) (user : Nat) : Bool :=
  let status := s.kycStatus user
  status.isActive && decide (env.timestamp < status.expiryDate)

/-- The four state-changing external calls of the contract. -/
inductive Op where
  | addTrustedIssuer (issuer : Nat)
  | removeTrustedIssuer (issuer : Nat)
  | registerKYC (user expiryDate credentialRoot : Nat)
  | verifyProof (proof : List Nat) (nullifier credentialRoot : Nat)

/-- Resulting storage of one external call: the new storage on success, the
unchanged pre-call storage on revert (EVM revert semantics). -/
def exec (s : State) (env : Env) : Op → State
  | .addTrustedIssuer i =>
      match addTrustedIssuer s env i with | .ok s' => s' | .error _ => s
  | .removeTrustedIssuer i =>
      match removeTrustedIssuer s env i with | .ok s' => s' | .error _ => s
  | .registerKYC u e r =>
      match registerKYC s env u e r with | .ok s' => s' | .error _ => s
  | .verifyProof p n r =>
      match verifyProof s env p n r with | .ok sr => sr.1 | .error _ => s

end Registry

namespace Service

/-!
Embedding of the `VerificationService` class (backend/api/verificationService.js).

JavaScript `Map`s become association lists with `Map.set` semantics (update
in place for an existing key, append for a new one).  A thrown `Error`
becomes `Except.error` carrying the message.  The ambient environment of a
call — `Date.now()`, the calendar date of `new Date()`, `Math.random()`,
and the successive `crypto.randomBytes(32)` hex draws — is an explicit
`World` record; a function reads exactly the components the JavaScript
method reads.  The service is modelled in the state it has in this
repository: `initialize` never loads circuit artifacts (the file reads are
commented out in the source), so `circuitWasm`, `zkey`, `vkey` and
`verifierContract` stay null and the mock branches of `generateProof` and
`verifyProof` are the executed code.
-/

/-- Association-list analogue of `Map.set`: update in place, else append. -/
def mapSet {α : Type} (m : List (String × α)) (k : String) (v : α) : List (String × α) :=
  if m.any (fun p => p.1 = k) then m.map (fun p => if p.1 = k then (k, v) else p)
  else m ++ [(k, v)]

/-- Association-list analogue of `Map.get`. -/
def mapGet {α : Type} (m : List (String × α)) (k : String) : Option α :=
  (m.find? (fun p => p.1 = k)).map Prod.snd

/-- Association-list analogue of `Map.has`. -/
def mapHas {α : Type} (m : List (String × α)) (k : String) : Bool :=
  m.any (fun p => p.1 = k)

/-- A calendar date, standing for a JavaScript `Date` at day granularity. -/
structure Ymd where
  y : Nat
  m : Nat
  d : Nat
deriving DecidableEq

/-- The ambient JavaScript environment of one service call: the clock in
milliseconds, the same instant as a calendar date, the decimal rendering of
the `Math.random()` draw, and the hex renderings of successive
`crypto.randomBytes(32)` draws. -/
structure World where
  nowMs : Nat
  today : Ymd
  mathRandom : String
  randHex : List String
deriving DecidableEq

/-- Numeric value of a decimal digit list. -/
def digitsToNat (l : List Char) : Nat :=
  l.foldl (fun n c => n * 10 + (c.toNat - 48)) 0

/-- Split a character list at dashes (structural analogue of splitting a
string on the dash separator). -/
def splitDash : List Char → List Char → List (List Char)
  | [], acc => [acc.reverse]
  | c :: cs, acc => if c = '-' then acc.reverse :: splitDash cs [] else splitDash cs (c :: acc)

/-- Parse an ISO `YYYY-MM-DD` string, as `new Date(dob)` does for the
well-formed date strings the service receives. -/
def parseDate (s : String) : Ymd :=
  match (splitDash s.data []).map digitsToNat with
  | [y, m, d] => ⟨y, m, d⟩
  | _ => ⟨0, 0, 0⟩

/-- calculateAge: year difference, minus one when the birthday in the
current year is still ahead. -/
def calculateAge (dob : String) (today : Ymd) : Int :=
  let b := parseDate dob
  let age : Int := (today.y : Int) - (b.y : Int)
  if today.m < b.m ∨ (today.m = b.m ∧ today.d < b.d) then age - 1 else age

/-- The input record of `issueCredential`.  `expiryDate` is optional in the
request body; `none` stands for an absent field. -/
structure UserData where
  userAddress : String
  fullName : String
  dob : String
  country : String
  documentType : String
  documentNumber : String
  expiryDate : Option Nat
deriving DecidableEq

/-- The `attributes` sub-object of a stored credential. -/
structure Attributes where
  isAdult : Bool
  country : String
  documentType : String
  verified : Bool
deriving DecidableEq

/-- A stored credential.  The JavaScript object carries no raw PII fields;
`revoked`, `revocationReason`, `revokedAt` start absent (falsy), modelled as
their zero values. -/
structure Credential where
  id : String
  userAddress : String
  issuer : String
  issuedAt : Nat
  expiryDate : Nat
  credentialHash : String
  attributes : Attributes
  revoked : Bool
  revocationReason : String
  revokedAt : Nat
deriving DecidableEq

/-- A verifier requirement set as the clients of this repository send it:
an object literal with an optional `minAge` and an optional `country`. -/
structure Requirements where
  minAge : Option Nat
  country : Option String
deriving DecidableEq

/-- A proof-cache entry: the record `generateProof` stores under the
nullifier key. -/
structure ProofData where
  credentialId : String
  generatedAt : Nat
  requirements : Requirements
  verified : Bool
  verifiedAt : Option Nat
  invalidated : Bool
deriving DecidableEq

/-- The mutable state of a `VerificationService` instance. -/
structure ServiceState where
  credentials : List (String × Credential)
  proofCache : List (String × ProofData)
  trustedIssuers : List String
deriving DecidableEq

/-- The constructor state: empty maps and the two hard-coded test issuers. -/
def initial : ServiceState :=
  ⟨[], [],
   ["0x742d35Cc6634C0532925a3b844Bc9eE7a2F1d3c1",
    "0x53d284357ec70cE289D6D64134DfAc8E511c8a3D"]⟩

/-- JavaScript toLowerCase for the ASCII strings of this development,
written by structural recursion over the character list so that concrete
scenarios evaluate inside the kernel. -/
def lowerStr (s : String) : String := String.mk (s.data.map Char.toLower)

/-- ethers.utils.isAddress for the lower-case hexadecimal form: 0x followed
by 40 lower-case hex digits.  (ethers additionally accepts checksummed
mixed-case addresses; every address this development feeds in is
lower-case, where the two notions agree.) -/
def isAddress (s : String) : Bool :=
  match s.data with
  | '0' :: 'x' :: rest =>
      decide (rest.length = 40) && rest.all (fun c => c.isDigit || ('a' ≤ c && c ≤ 'f'))
  | _ => false

/-- Quote a string as JSON.stringify renders it (the strings the service
hashes contain no characters that need escaping). -/
def q (s : String) : String := "\"" ++ s ++ "\""

/-- JSON.stringify of the PII object passed to hashCredentialData by
issueCredential, with the field order of the object literal. -/
def jsonPII (ud : UserData) : String :=
  "\x7b\"fullName\":" ++ q ud.fullName ++ ",\"dob\":" ++ q ud.dob ++
    ",\"country\":" ++ q ud.country ++ ",\"documentType\":" ++ q ud.documentType ++
    ",\"documentNumber\":" ++ q ud.documentNumber ++ "\x7d"

/-- JSON.stringify of a requirements object, `minAge` before `country`,
absent fields omitted. -/
def jsonReq (r : Requirements) : String :=
  match r.minAge, r.country with
  | some a, some c => "\x7b\"minAge\":" ++ toString a ++ ",\"country\":" ++ q c ++ "\x7d"
  | some a, none => "\x7b\"minAge\":" ++ toString a ++ "\x7d"
  | none, some c => "\x7b\"country\":" ++ q c ++ "\x7d"
  | none, none => "\x7b\x7d"

/-- hashCredentialData on an already-serialized JSON string. -/
def hashCredentialData (json : String) : String := "0x" ++ Sha256.sha256hex json

/-- generateCredentialId: first 32 hex characters of the digest of address,
document number and clock concatenated. -/
def generateCredentialId (userAddress documentNumber : String) (nowMs : Nat) : String :=
  String.mk ((Sha256.sha256hex (userAddress ++ documentNumber ++ toString nowMs)).data.take 32)

/-- generateCommitment: digest of credential id, attribute-data hash and
issuance time concatenated — nothing else enters it. -/
def generateCommitment (c : Credential) : String :=
  "0x" ++ Sha256.sha256hex (c.id ++ c.credentialHash ++ toString c.issuedAt)

/-- generateNullifier: digest of credential id, requirements JSON, the
current clock and a Math.random draw concatenated. -/
def generateNullifier (credentialId : String) (requirements : Requirements) (w : World) :
    String :=
  "0x" ++ Sha256.sha256hex
    (credentialId ++ jsonReq requirements ++ toString w.nowMs ++ w.mathRandom)

/-- The result object of `issueCredential` (minus the constant success flag;
the returned credential copy carries no PII, as the stored one already does
not). -/
structure IssueResult where
  credentialId : String
  commitment : String
  credential : Credential
deriving DecidableEq

/-- issueCredential: validate the address, build and store the credential,
return id, commitment and the credential. -/
def issueCredential (st : ServiceState) (w : World) (ud : UserData) :
    Except String (ServiceState × IssueResult) :=
  if !(isAddress ud.userAddress) then .error "Invalid user address"
  else
    let credentialId := generateCredentialId ud.userAddress ud.documentNumber w.nowMs
    let nowSec := w.nowMs / 1000
    let expiry := match ud.expiryDate with
      | some e => if e = 0 then nowSec + 365 * 24 * 60 * 60 else e
      | none => nowSec + 365 * 24 * 60 * 60
    let cred : Credential :=
      { id := credentialId
        userAddress := lowerStr ud.userAddress
        issuer := "zkKYC Platform"
        issuedAt := nowSec
        expiryDate := expiry
        credentialHash := hashCredentialData (jsonPII ud)
        attributes :=
          ⟨decide (18 ≤ calculateAge ud.dob w.today), ud.country, ud.documentType, true⟩
        revoked := false
        revocationReason := ""
        revokedAt := 0 }
    let commitment := generateCommitment cred
    .ok ({ st with credentials := mapSet st.credentials (lowerStr ud.userAddress) cred },
         ⟨credentialId, commitment, cred⟩)

/-- getCredentialById: first credential with the given id in map insertion
order. -/
def getCredentialById (st : ServiceState) (credentialId : String) : Option Credential :=
  (st.credentials.find? (fun p => p.2.id = credentialId)).map Prod.snd

/-- JavaScript `requirements.minAge || 18`: absent or zero falls back to 18. -/
def jsMinAge (r : Requirements) : Nat :=
  match r.minAge with
  | some 0 => 18
  | some n => n
  | none => 18

/-- The JSON strings of the fixed mock objects hashed by
prepareCircuitInputs. -/
def jsonDobMock : String := "\x7b\"dob\":\"1990-01-01\"\x7d"
def jsonDocMock : String := "\x7b\"documentNumber\":\"ABC123\"\x7d"
def jsonCountriesMock : String := "\x7b\"countries\":[\"US\",\"GB\",\"DE\"]\x7d"

/-- The circuit-input record prepareCircuitInputs returns. -/
structure CircuitInputs where
  privateKey : String
  dobHash : String
  countryCode : String
  documentNumberHash : String
  minAge : Nat
  allowedCountriesHash : String
  credentialRoot : String
  currentDate : Nat
deriving DecidableEq

/-- prepareCircuitInputs: mock private data, the requirement threshold, the
credential hash as root, and the clock. -/
def prepareCircuitInputs (c : Credential) (r : Requirements) (w : World) : CircuitInputs :=
  { privateKey := "0x" ++ w.randHex.getD 0 ""
    dobHash := hashCredentialData jsonDobMock
    countryCode := "1"
    documentNumberHash := hashCredentialData jsonDocMock
    minAge := jsMinAge r
    allowedCountriesHash := hashCredentialData jsonCountriesMock
    credentialRoot := c.credentialHash
    currentDate := w.nowMs / 1000 }

/-- Value of a hex digit. -/
def hexVal (c : Char) : Nat :=
  if c.isDigit then c.toNat - 48
  else if 'a' ≤ c && c ≤ 'f' then c.toNat - 87
  else if 'A' ≤ c && c ≤ 'F' then c.toNat - 55
  else 0

/-- Numeric value of a hex string without 0x prefix. -/
def hexToNat (s : String) : Nat := s.data.foldl (fun n c => n * 16 + hexVal c) 0

/-- BigNumber.from of a 0x-prefixed hex string rendered back with toString:
the decimal rendering of its value. -/
def decOfHex (h : String) : String := toString (hexToNat h)

/-- The mock groth16 proof object. -/
structure MockProof where
  piA : List String
  piB : List (List String)
  piC : List String
  protocol : String
deriving DecidableEq

/-- generateMockProof: eight random 32-byte words rendered in decimal, in
the draw order of the source. -/
def generateMockProof (w : World) : MockProof :=
  { piA := [decOfHex (w.randHex.getD 1 ""), decOfHex (w.randHex.getD 2 ""), "1"]
    piB := [[decOfHex (w.randHex.getD 3 ""), decOfHex (w.randHex.getD 4 "")],
            [decOfHex (w.randHex.getD 5 ""), decOfHex (w.randHex.getD 6 "")],
            ["1", "0"]]
    piC := [decOfHex (w.randHex.getD 7 ""), decOfHex (w.randHex.getD 8 ""), "1"]
    protocol := "groth16" }

/-- The Solidity-shaped proof formatProofForSolidity returns. -/
structure SolidityProof where
  a : List String
  b : List (List String)
  c : List String
deriving DecidableEq

/-- formatProofForSolidity: drop the trailing projective coordinates. -/
def formatProofForSolidity (p : MockProof) : SolidityProof :=
  ⟨p.piA.take 2, p.piB.map (fun arr => arr.take 2), p.piC.take 2⟩

/-- hexZeroPad of a BigNumber built from a 0x hex string, padded to 32
bytes: normalize the digits to exactly 64 hex characters. -/
def hexZeroPad32 (s : String) : String :=
  let digits := (s.data.drop 2).dropWhile (fun c => c = '0')
  "0x" ++ String.mk (List.replicate (64 - digits.length) '0' ++ digits)

/-- The result object of `generateProof` (minus the constant success flag
and the null verifier-contract reference). -/
structure GenerateProofResult where
  proof : SolidityProof
  publicSignals : List String
  nullifier : String
deriving DecidableEq

/-- generateProof: look the credential up by id, reject a missing or expired
one, derive nullifier and mock proof, cache the nullifier with
verified = false, and return the artifact. -/
def generateProof (st : ServiceState) (w : World) (credentialId : String)
    (requirements : Requirements) :
    Except String (ServiceState × GenerateProofResult) :=
  match getCredentialById st credentialId with
  | none => .error "Credential not found"
  | some credential =>
    if credential.expiryDate < w.nowMs / 1000 then .error "Credential expired"
    else
      let circuitInputs := prepareCircuitInputs credential requirements w
      let nullifier := generateNullifier credentialId requirements w
      let proof := generateMockProof w
      let publicSignals := [hexZeroPad32 nullifier, hexZeroPad32 circuitInputs.credentialRoot]
      let cacheEntry : ProofData :=
        ⟨credentialId, w.nowMs, requirements, false, none, false⟩
      .ok ({ st with proofCache := mapSet st.proofCache nullifier cacheEntry },
           ⟨formatProofForSolidity proof, publicSignals, nullifier⟩)

/-- The request body of `verifyProof`; `proof` is `none` for a missing
(falsy) proof field. -/
structure ProofSubmission where
  proof : Option SolidityProof
  publicSignals : List String
  nullifier : String
deriving DecidableEq

/-- The response object of `verifyProof`; fields absent from a particular
response shape are `none`. -/
structure VerifyResult where
  success : Bool
  error : Option String
  nullifier : String
  verified : Option Bool
  timestamp : Option Nat
deriving DecidableEq

/-- mockVerifyProof: a truthy proof object and a nonempty public-signal
list. -/
def mockVerifyProof (proof : Option SolidityProof) (publicSignals : List String) : Bool :=
  proof.isSome && !publicSignals.isEmpty

/-- verifyProof: reject a nullifier whose cache entry is already verified,
run the mock check, and on success mark an existing cache entry verified.
The method never throws. -/
def verifyProof (st : ServiceState) (w : World) (pd : ProofSubmission) :
    ServiceState × VerifyResult :=
  match mapGet st.proofCache pd.nullifier with
  | some cached =>
    if cached.verified then
      (st, ⟨false, some "Proof already used", pd.nullifier, none, none⟩)
    else
      let isValid := mockVerifyProof pd.proof pd.publicSignals
      let entry : ProofData := { cached with verified := true, verifiedAt := some w.nowMs }
      let st' :=
        if isValid then { st with proofCache := mapSet st.proofCache pd.nullifier entry }
        else st
      (st', ⟨isValid, none, pd.nullifier, some isValid, some w.nowMs⟩)
  | none =>
      let isValid := mockVerifyProof pd.proof pd.publicSignals
      (st, ⟨isValid, none, pd.nullifier, some isValid, some w.nowMs⟩)

/-- One entry of the batch result: the individual verification result plus
the `proofId` field spread in by batchVerifyProofs. -/
structure BatchEntry where
  res : VerifyResult
  proofId : String
deriving DecidableEq

/-- The aggregate object batchVerifyProofs returns. -/
structure BatchResult where
  success : Bool
  results : List BatchEntry
  total : Nat
  valid : Nat
deriving DecidableEq

/-- The sequential loop of batchVerifyProofs: verify each submission in
order, threading the service state. -/
def batchVerifyLoop (st : ServiceState) (w : World) :
    List ProofSubmission → ServiceState × List BatchEntry
  | [] => (st, [])
  | p :: ps =>
      let sr := verifyProof st w p
      let rest := batchVerifyLoop sr.1 w ps
      (rest.1, ⟨sr.2, p.nullifier⟩ :: rest.2)

/-- batchVerifyProofs: the per-input results plus total, valid count and
the conjunction flag. -/
def batchVerifyProofs (st : ServiceState) (w : World) (proofs : List ProofSubmission) :
    ServiceState × BatchResult :=
  let run := batchVerifyLoop st w proofs
  (run.1,
   ⟨run.2.all (fun r => r.res.success), run.2, proofs.length,
    (run.2.filter (fun r => r.res.success)).length⟩)

/-- The result object of `revokeCredential`. -/
structure RevokeResult where
  success : Bool
  credentialId : Option String
  revokedAt : Option Nat
  error : Option String
deriving DecidableEq

/-- revokeCredential: mark the credential revoked and flag every cached
proof of that credential invalidated. -/
def revokeCredential (st : ServiceState) (nowMs : Nat) (userAddress reason : String) :
    ServiceState × RevokeResult :=
  let address := lowerStr userAddress
  match mapGet st.credentials address with
  | some credential =>
      let cred' := { credential with
        revoked := true, revocationReason := reason, revokedAt := nowMs / 1000 }
      let creds' := mapSet st.credentials address cred'
      let cache' := st.proofCache.map (fun p =>
        if p.2.credentialId = credential.id then (p.1, { p.2 with invalidated := true }) else p)
      ({ st with credentials := creds', proofCache := cache' },
       ⟨true, some credential.id, some (nowMs / 1000), none⟩)
  | none => (st, ⟨false, none, none, some "Credential not found"⟩)

/-- Whether an `Except` result is a success. -/
def isOkE {ε α : Type} : Except ε α → Bool
  | .ok _ => true
  | .error _ => false

end Service

namespace ProofServer

/-!
Embedding of the two proof endpoints of backend/api/proofServer.js, which
share the in-memory map `credentialsDB`.

The generate-proof handler calls the identifier `generateNullifier`, which
is unbound in proofServer.js (the repository defines a client-side
generateNullifier only in the non-imported module src/my-app utils,
src/unnamed/part_002, and as methods of unrelated classes).  Evaluating the
bare name raises a ReferenceError inside the handler try block, after the
pure mock generateZKProof call and before the credentialsDB.set two lines
further down, so every generate-proof request is answered from the catch
clause with status 500 and the shared map is never written by generation.
The handler is embedded with exactly that semantics.
-/

/-- A proof-reference record the generate-proof endpoint stores under the
nullifier key. -/
structure DBEntry where
  userId : String
  verifiedAt : Nat
  expiry : Nat
  publicSignals : List String
deriving DecidableEq

/-- The fixed placeholder proof object of the mock generateZKProof. -/
structure ServerProof where
  a : List String
  b : List (List String)
  c : List String
deriving DecidableEq

/-- The proof constant returned by the mock generateZKProof. -/
def mockServerProof : ServerProof :=
  ⟨["0x123...", "0x456..."],
   [["0x789...", "0xabc..."], ["0xdef...", "0x123..."]],
   ["0x456...", "0x789..."]⟩

/-- An HTTP response of the two endpoints, with the fields the handlers
set; fields absent from a given response shape are `none`. -/
structure Response where
  status : Nat
  success : Bool
  error : Option String
  message : Option String
  verificationId : Option String
  nullifier : Option String
deriving DecidableEq

/-- The mock verifyZKProof of the server: truthy proof and nonempty public
signals. -/
def verifyZKProof (proof : Option ServerProof) (publicSignals : List String) : Bool :=
  proof.isSome && !publicSignals.isEmpty

/-- The POST generate-proof handler.  Its try block evaluates the unbound
identifier generateNullifier right after the pure mock generateZKProof
call, raising a ReferenceError before the credentialsDB.set or the success
response can run; the catch clause answers 500 carrying the error message,
and the shared map is left exactly as it was. -/
def postGenerateProof (db : List (String × DBEntry)) (nowMs : Nat)
    (userId : String) (vdTimestamp : Nat) (publicInputs : List String) :
    List (String × DBEntry) × Response :=
  (db, ⟨500, false, some "generateNullifier is not defined", none, none, none⟩)

/-- The POST verify-proof handler: reject a nullifier already present in the
shared map, otherwise answer according to the mock proof check — without
ever writing to the map. -/
def postVerifyProof (db : List (String × DBEntry)) (proof : Option ServerProof)
    (publicSignals : List String) (nullifier : String) :
    List (String × DBEntry) × Response :=
  if Service.mapHas db nullifier then
    (db, ⟨400, false, some "Proof already used", none, none, none⟩)
  else if verifyZKProof proof publicSignals then
    (db, ⟨200, true, none, some "Proof verified successfully", some nullifier, none⟩)
  else
    (db, ⟨400, false, some "Invalid proof", none, none, none⟩)

end ProofServer

namespace Issuer

/-- generateNullifier of the CredentialIssuer class (src/unnamed/part_001):
digest of credential id, requirements JSON and the current clock
concatenated — so it too depends on the call time. -/
def generateNullifier (credentialId reqJson : String) (nowMs : Nat) : String :=
  "0x" ++ Sha256.sha256hex (credentialId ++ reqJson ++ toString nowMs)

end Issuer

/-! Concrete scenario data for the witnesses and counterexamples. -/

/-- A deployed registry with admin 1. -/
def rS0 : Registry.State := Registry.deploy 1

/-- A call by the admin. -/
def rEnvAdmin : Registry.Env := ⟨1, 100⟩

/-- A call by a non-admin principal. -/
def rEnvUser : Registry.Env := ⟨2, 100⟩

/-- The registry after nullifier 5 has been consumed. -/
def rS1 : Registry.State := { rS0 with nullifiers := Registry.upd rS0.nullifiers 5 true }

/-- The registry after the admin added issuer 9. -/
def rAdd1 : Registry.State :=
  { rS0 with trustedIssuers := Registry.upd rS0.trustedIssuers 9 true }

/-- The registry after issuer 9 registered KYC for user 7 with expiry 200. -/
def rReg : Registry.State :=
  { rAdd1 with kycStatus := Registry.upd rAdd1.kycStatus 7 ⟨7, 100, 200, 3, true⟩ }

/-- A concrete applicant record. -/
def udA : Service.UserData :=
  { userAddress := "0xaaaaaaaaaaaaaaaaaaaaaaaaaaaaaaaaaaaaaaaa"
    fullName := "Alice Smith"
    dob := "1990-01-01"
    country := "US"
    documentType := "passport"
    documentNumber := "P1234567"
    expiryDate := none }

/-- The applicant record with a malformed address. -/
def udBad : Service.UserData := { udA with userAddress := "bob" }

/-- The applicant record with an expiry already in the past of `wA`. -/
def udPast : Service.UserData := { udA with documentNumber := "P999", expiryDate := some 5 }

/-- The calendar date of the scenario instant. -/
def dateA : Service.Ymd := ⟨2025, 10, 9⟩

/-- The scenario environment: clock 1760000000000 ms. -/
def wA : Service.World := ⟨1760000000000, dateA, "0.5", ["aa", "bb", "cc", "dd", "ee", "ff", "a1", "b2", "c3"]⟩

/-- The same instant with different entropy draws. -/
def wB : Service.World := ⟨1760000000000, dateA, "0.75", ["11", "22"]⟩

/-- One millisecond later, same entropy. -/
def wC : Service.World := ⟨1760000000001, dateA, "0.5", ["aa", "bb", "cc", "dd", "ee", "ff", "a1", "b2", "c3"]⟩

/-- Same clock and Math.random draw as `wA`, different randomBytes draws. -/
def wD : Service.World := ⟨1760000000000, dateA, "0.5", ["11"]⟩

/-- A concrete requirement set. -/
def reqA : Service.Requirements := ⟨some 18, none⟩

/-- Issuance of `udA` at `wA` from the fresh service. -/
def c3Issue : Except String (Service.ServiceState × Service.IssueResult) :=
  Service.issueCredential Service.initial wA udA

/-- Service state after the issuance. -/
def c3St1 : Service.ServiceState :=
  match c3Issue with | .ok p => p.1 | .error _ => Service.initial

/-- The issued credential id. -/
def c3Cid : String :=
  match c3Issue with | .ok p => p.2.credentialId | .error _ => ""

/-- Proof generation against the issued credential. -/
def c3Gen : Except String (Service.ServiceState × Service.GenerateProofResult) :=
  Service.generateProof c3St1 wA c3Cid reqA

/-- Service state after proof generation. -/
def c3St2 : Service.ServiceState :=
  match c3Gen with | .ok p => p.1 | .error _ => c3St1

/-- The generated proof artifact. -/
def c3Art : Service.GenerateProofResult :=
  match c3Gen with | .ok p => p.2 | .error _ => ⟨⟨[], [], []⟩, [], ""⟩

/-- Revocation of the credential after the proof was generated. -/
def c3St3 : Service.ServiceState :=
  (Service.revokeCredential c3St2 wA.nowMs udA.userAddress "fraud").1

/-- Verification of the pre-revocation artifact on the post-revocation
state. -/
def c3Ver : Service.ServiceState × Service.VerifyResult :=
  Service.verifyProof c3St3 wA ⟨some c3Art.proof, c3Art.publicSignals, c3Art.nullifier⟩

/-- Revocation performed right after issuance (before any proof). -/
def c5St : Service.ServiceState :=
  (Service.revokeCredential c3St1 wA.nowMs udA.userAddress "lost").1

/-- Proof generation attempted on the revoked, unexpired credential. -/
def c5Gen : Except String (Service.ServiceState × Service.GenerateProofResult) :=
  Service.generateProof c5St wA c3Cid reqA

/-- Issuance with an expiry already in the past. -/
def c6Issue : Except String (Service.ServiceState × Service.IssueResult) :=
  Service.issueCredential Service.initial wA udPast


/-! Theorems.  First two sanity checks pinning the executable SHA-256 to
published test vectors, then helper lemmas, then one theorem per checked
claim (with a witness where the theorem carries hypotheses). -/

set_option maxRecDepth 1000000

/-- The executable SHA-256 reproduces the standard empty-string test
vector. -/
theorem sha256hex_empty :
    Sha256.sha256hex "" =
      "e3b0c44298fc1c149afbf4c8996fb92427ae41e4649b934ca495991b7852b855" := by
  decide

/-- The executable SHA-256 reproduces the standard abc test vector. -/
theorem sha256hex_abc :
    Sha256.sha256hex "abc" =
      "ba7816bf8f01cfea414140de5dae2223b00361a396177a9cb410ff61f20015ad" := by
  decide

/-- Updating the same key of a map twice with the same value equals the
single update. -/
theorem upd_upd_same {α : Type} (f : Nat → α) (k : Nat) (v : α) :
    Registry.upd (Registry.upd f k v) k v = Registry.upd f k v := by
  funext a
  unfold Registry.upd
  by_cases h : a = k <;> simp [h]

/-- C1: the registry consumes every nullifier at most once.  A successful
verifyProof marks the nullifier consumed; on any state where the nullifier
is consumed, every verifyProof call with it reverts with the message Proof
already used; and no external call of the contract ever clears a consumed
nullifier (no transition back from Consumed to Unseen). -/
theorem nullifier_at_most_once (s : Registry.State) (env : Registry.Env)
    (p : List Nat) (n r : Nat) :
    (∀ s' b, Registry.verifyProof s env p n r = .ok (s', b) → s'.nullifiers n = true) ∧
    (s.nullifiers n = true → Registry.verifyProof s env p n r = .error "Proof already used") ∧
    (∀ op : Registry.Op, s.nullifiers n = true →
      (Registry.exec s env op).nullifiers n = true) := by
  refine ⟨?_, ?_, ?_⟩
  · intro s' b h
    unfold Registry.verifyProof at h
    by_cases hn : s.nullifiers n = true
    · rw [if_pos hn] at h
      exact absurd h (by simp)
    · rw [if_neg hn] at h
      by_cases hv : Registry.verifyZKProof p n r = true
      · rw [if_pos hv] at h
        simp only [Except.ok.injEq, Prod.mk.injEq] at h
        obtain ⟨hs, -⟩ := h
        subst hs
        simp [Registry.upd]
      · rw [if_neg hv] at h
        exact absurd h (by simp)
  · intro h
    unfold Registry.verifyProof
    rw [if_pos h]
  · intro op h
    cases op with
    | addTrustedIssuer i =>
        unfold Registry.exec Registry.addTrustedIssuer
        by_cases hc : env.sender = s.admin <;> simp [hc, h]
    | removeTrustedIssuer i =>
        unfold Registry.exec Registry.removeTrustedIssuer
        by_cases hc : env.sender = s.admin <;> simp [hc, h]
    | registerKYC u e cr =>
        unfold Registry.exec Registry.registerKYC
        by_cases hc : s.trustedIssuers env.sender = true <;> simp [hc, h]
    | verifyProof p' n' r' =>
        unfold Registry.exec Registry.verifyProof
        by_cases h1 : s.nullifiers n' = true
        · simp [h1, h]
        · by_cases h2 : Registry.verifyZKProof p' n' r' = true
          · by_cases hnn : n = n' <;> simp [h1, h2, hnn, Registry.upd, h]
          · simp [h1, h2, h]

/-- Witness for C1: after nullifier 5 is consumed (which the first part of
the theorem derives from a concrete successful call), a repeat call reverts
with Proof already used and a registerKYC call leaves it consumed. -/
theorem nullifier_at_most_once_witness :
    rS1.nullifiers 5 = true ∧
    Registry.verifyProof rS1 rEnvUser [1] 5 7 = .error "Proof already used" ∧
    (Registry.exec rS1 rEnvUser (.registerKYC 2 9 9)).nullifiers 5 = true := by
  have h1 : rS1.nullifiers 5 = true :=
    (nullifier_at_most_once rS0 rEnvUser [1] 5 7).1 rS1 true rfl
  exact ⟨h1, (nullifier_at_most_once rS1 rEnvUser [1] 5 7).2.1 h1,
         (nullifier_at_most_once rS1 rEnvUser [1] 5 7).2.2 _ h1⟩

/-- C9: only the admin may change the issuer registry — any other caller
gets the revert message Only admin and the state is unchanged — and both
addTrustedIssuer and removeTrustedIssuer are idempotent: repeating the call
on the resulting state succeeds with exactly the same state. -/
theorem issuer_registry_admin_only_idempotent (s : Registry.State)
    (env : Registry.Env) (issuer : Nat) :
    (env.sender ≠ s.admin →
      Registry.addTrustedIssuer s env issuer = .error "Only admin" ∧
      Registry.removeTrustedIssuer s env issuer = .error "Only admin" ∧
      Registry.exec s env (.addTrustedIssuer issuer) = s ∧
      Registry.exec s env (.removeTrustedIssuer issuer) = s) ∧
    (∀ s₁, Registry.addTrustedIssuer s env issuer = .ok s₁ →
      Registry.addTrustedIssuer s₁ env issuer = .ok s₁) ∧
    (∀ s₁, Registry.removeTrustedIssuer s env issuer = .ok s₁ →
      Registry.removeTrustedIssuer s₁ env issuer = .ok s₁) := by
  refine ⟨?_, ?_, ?_⟩
  · intro h
    unfold Registry.exec Registry.addTrustedIssuer Registry.removeTrustedIssuer
    simp [h]
  · intro s₁ h
    unfold Registry.addTrustedIssuer at h ⊢
    by_cases hs : env.sender = s.admin
    · rw [if_pos hs] at h
      simp only [Except.ok.injEq] at h
      subst h
      rw [if_pos hs]
      rw [upd_upd_same]
    · rw [if_neg hs] at h
      exact absurd h (by simp)
  · intro s₁ h
    unfold Registry.removeTrustedIssuer at h ⊢
    by_cases hs : env.sender = s.admin
    · rw [if_pos hs] at h
      simp only [Except.ok.injEq] at h
      subst h
      rw [if_pos hs]
      rw [upd_upd_same]
    · rw [if_neg hs] at h
      exact absurd h (by simp)

/-- Witness for C9: the non-admin caller 2 is rejected and changes nothing;
re-adding issuer 9 returns exactly the state of the first add. -/
theorem issuer_registry_admin_only_idempotent_witness :
    Registry.addTrustedIssuer rS0 rEnvUser 9 = .error "Only admin" ∧
    Registry.exec rS0 rEnvUser (.addTrustedIssuer 9) = rS0 ∧
    Registry.addTrustedIssuer rAdd1 rEnvAdmin 9 = .ok rAdd1 := by
  have h := (issuer_registry_admin_only_idempotent rS0 rEnvUser 9).1 (by decide)
  exact ⟨h.1, h.2.2.1,
    (issuer_registry_admin_only_idempotent rS0 rEnvAdmin 9).2.1 rAdd1 rfl⟩

/-- C8: hasValidKYC is a pure read returning true exactly when the stored
status is active and its expiry is strictly after the block timestamp; a
registered credential therefore reports true strictly before its expiry
and false from the expiry on, with no further state change involved. -/
theorem hasValidKYC_active_and_unexpired (s : Registry.State)
    (env : Registry.Env) (user : Nat) :
    (Registry.hasValidKYC s env user = true ↔
      ((s.kycStatus user).isActive = true ∧
        env.timestamp < (s.kycStatus user).expiryDate)) ∧
    (∀ (env₂ : Registry.Env) (expiry root : Nat) (s' : Registry.State),
      Registry.registerKYC s env₂ user expiry root = .ok s' →
      ∀ t sender, Registry.hasValidKYC s' ⟨sender, t⟩ user = decide (t < expiry)) := by
  constructor
  · simp [Registry.hasValidKYC, Bool.and_eq_true, decide_eq_true_iff]
  · intro env₂ e root s' h t sender
    unfold Registry.registerKYC at h
    by_cases hc : s.trustedIssuers env₂.sender = true
    · rw [if_pos hc] at h
      simp only [Except.ok.injEq] at h
      subst h
      simp [Registry.hasValidKYC, Registry.upd]
    · rw [if_neg hc] at h
      exact absurd h (by simp)

/-- Witness for C8: the credential registered for user 7 with expiry 200
reports true at time 150 and false at time 200, on the same stored state. -/
theorem hasValidKYC_active_and_unexpired_witness :
    Registry.hasValidKYC rReg ⟨0, 150⟩ 7 = true ∧
    Registry.hasValidKYC rReg ⟨0, 200⟩ 7 = false := by
  have h := (hasValidKYC_active_and_unexpired rAdd1 rEnvAdmin 7).2 ⟨9, 100⟩ 200 3 rReg rfl
  exact ⟨(h 150 0).trans (by decide), (h 200 0).trans (by decide)⟩

/-- The batch loop emits one entry per submission, carrying its nullifier
as proofId, in input order. -/
theorem batchLoop_proofIds (st : Service.ServiceState) (w : Service.World)
    (ps : List Service.ProofSubmission) :
    ((Service.batchVerifyLoop st w ps).2).map (fun e => e.proofId) =
      ps.map (fun p => p.nullifier) := by
  induction ps generalizing st with
  | nil => rfl
  | cons p ps ih => simp [Service.batchVerifyLoop, ih]

/-- C10: batchVerifyProofs reports total equal to the number of inputs, one
result per input in input order (keyed by the input nullifier), valid equal
to the number of succeeding results, and an overall success flag that holds
exactly when every individual result succeeded — vacuously true on the
empty batch. -/
theorem batchVerifyProofs_aggregates (st : Service.ServiceState)
    (w : Service.World) (proofs : List Service.ProofSubmission) :
    (Service.batchVerifyProofs st w proofs).2.total = proofs.length ∧
    ((Service.batchVerifyProofs st w proofs).2.results).map (fun e => e.proofId) =
      proofs.map (fun p => p.nullifier) ∧
    (Service.batchVerifyProofs st w proofs).2.valid =
      (((Service.batchVerifyProofs st w proofs).2.results).filter
        (fun e => e.res.success)).length ∧
    ((Service.batchVerifyProofs st w proofs).2.success = true ↔
      ∀ e ∈ (Service.batchVerifyProofs st w proofs).2.results,
        e.res.success = true) := by
  refine ⟨rfl, ?_, rfl, ?_⟩
  · simpa [Service.batchVerifyProofs] using batchLoop_proofIds st w proofs
  · simp [Service.batchVerifyProofs, List.all_eq_true]

/-- Witness for C10 at the empty batch: total 0 and overall success true. -/
theorem batchVerifyProofs_aggregates_witness :
    (Service.batchVerifyProofs Service.initial wA []).2.total = 0 ∧
    (Service.batchVerifyProofs Service.initial wA []).2.success = true := by
  refine ⟨(batchVerifyProofs_aggregates Service.initial wA []).1, ?_⟩
  refine (batchVerifyProofs_aggregates Service.initial wA []).2.2.2.mpr ?_
  intro e he
  simp [Service.batchVerifyProofs, Service.batchVerifyLoop] at he

/-- C2 counterexample: two generateNullifier calls with the identical
credential id and identical requirement set but made one clock millisecond
apart return different nullifiers, in the service as well as in the
CredentialIssuer class — the derivation hashes the call time (and, in the
service, a Math.random draw), so it is not a function of credential and
requirement set alone. -/
theorem generateNullifier_not_deterministic :
    wA.nowMs ≠ wC.nowMs ∧ wA.mathRandom = wC.mathRandom ∧
    Service.generateNullifier "cid1" reqA wA ≠ Service.generateNullifier "cid1" reqA wC ∧
    Issuer.generateNullifier "cid1" "\x7b\x7d" 0 ≠ Issuer.generateNullifier "cid1" "\x7b\x7d" 1 := by
  exact ⟨by decide, rfl, by decide, by decide⟩

/-- C2 amended: generateNullifier is deterministic only in credential id,
requirement set, clock and random draw together — with the ambient time
and randomness also fixed the output is fixed — and the output is the
0x-prefixed digest of exactly those four components concatenated. -/
theorem generateNullifier_world_deterministic
    (cid : String) (req : Service.Requirements) (w w' : Service.World) :
    (w.nowMs = w'.nowMs → w.mathRandom = w'.mathRandom →
      Service.generateNullifier cid req w = Service.generateNullifier cid req w') ∧
    Service.generateNullifier cid req w =
      "0x" ++ Sha256.sha256hex
        (cid ++ Service.jsonReq req ++ toString w.nowMs ++ w.mathRandom) := by
  constructor
  · intro h1 h2
    unfold Service.generateNullifier
    rw [h1, h2]
  · rfl

/-- Witness for the amended C2: two worlds agreeing on clock and
Math.random (but with different randomBytes draws) give one nullifier. -/
theorem generateNullifier_world_deterministic_witness :
    Service.generateNullifier "cid1" reqA wA = Service.generateNullifier "cid1" reqA wD :=
  (generateNullifier_world_deterministic "cid1" reqA wA wD).1 rfl rfl

/-- C6 counterexample: issueCredential accepts a request whose expiry (5)
is far in the past of the call clock and stores the credential; the stored
issuer string is not in the trusted-issuer set either.  Neither an
InvalidExpiry nor an UntrustedIssuer rejection exists in the code. -/
theorem issueCredential_accepts_past_expiry :
    udPast.expiryDate = some 5 ∧
    (5 : Nat) ≤ wA.nowMs / 1000 ∧
    Service.isOkE c6Issue = true ∧
    (c6Issue.toOption.map fun p =>
      Service.mapHas p.1.credentials (Service.lowerStr udPast.userAddress)) = some true ∧
    (c6Issue.toOption.map fun p => p.2.credential.expiryDate) = some 5 ∧
    (c6Issue.toOption.map fun p => p.2.credential.issuer) = some "zkKYC Platform" ∧
    Service.initial.trustedIssuers.contains "zkKYC Platform" = false := by
  decide

/-- C6 amended: issueCredential validates only the user address.  A
malformed address fails with Invalid user address before any state change;
any well-formed address is accepted — no issuer-trust consultation and no
expiry validation takes place. -/
theorem issueCredential_validates_only_address
    (st : Service.ServiceState) (w : Service.World) (ud : Service.UserData) :
    (Service.isAddress ud.userAddress = false →
      Service.issueCredential st w ud = .error "Invalid user address") ∧
    (Service.isAddress ud.userAddress = true →
      Service.isOkE (Service.issueCredential st w ud) = true) := by
  constructor
  · intro h
    unfold Service.issueCredential
    rw [h]
    rfl
  · intro h
    unfold Service.issueCredential
    rw [h]
    rfl

/-- Witness for the amended C6: the malformed address bob is rejected, and
the well-formed request with expiry 5 (long past) is accepted. -/
theorem issueCredential_validates_only_address_witness :
    Service.issueCredential Service.initial wA udBad = .error "Invalid user address" ∧
    Service.isOkE (Service.issueCredential Service.initial wA udPast) = true :=
  ⟨(issueCredential_validates_only_address Service.initial wA udBad).1 (by decide),
   (issueCredential_validates_only_address Service.initial wA udPast).2 (by decide)⟩

/-- C7 counterexample: two issuance calls at the same instant with
different ambient randomness (different Math.random and randomBytes draws)
return and store exactly the same result — in particular the same
commitment — so no freshly generated random blinding factor enters the
commitment, and nothing resembling a blinding factor is returned to the
subject. -/
theorem issueCommitment_no_blinding_factor :
    wA.mathRandom ≠ wB.mathRandom ∧ wA.randHex ≠ wB.randHex ∧
    Service.issueCredential Service.initial wA udA =
      Service.issueCredential Service.initial wB udA :=
  ⟨by decide, by decide, rfl⟩

/-- C7 amended: the commitment of every successful issuance is the digest
of credential id, attribute-data hash and issuance second, and the entire
issuance result depends only on the request and the clock — no random
blinding factor is generated, returned or persisted. -/
theorem issueCommitment_deterministic
    (st : Service.ServiceState) (w w' : Service.World) (ud : Service.UserData) :
    ((Service.issueCredential st w ud).map fun p => p.2.commitment) =
      ((Service.issueCredential st w ud).map fun p =>
        "0x" ++ Sha256.sha256hex (p.2.credential.id ++ p.2.credential.credentialHash ++
          toString p.2.credential.issuedAt)) ∧
    (w'.nowMs = w.nowMs → w'.today = w.today →
      Service.issueCredential st w' ud = Service.issueCredential st w ud) := by
  constructor
  · unfold Service.issueCredential
    split
    · rfl
    · rfl
  · intro h1 h2
    cases w with
    | mk n t mr rh =>
      cases w' with
      | mk n' t' mr' rh' =>
        have hn : n' = n := h1
        have ht : t' = t := h2
        subst hn
        subst ht
        rfl

/-- Witness for the amended C7 at a concrete issuance: the commitment
formula holds, and the world differing only in entropy yields the identical
issuance. -/
theorem issueCommitment_deterministic_witness :
    ((Service.issueCredential Service.initial wA udA).map fun p => p.2.commitment) =
      ((Service.issueCredential Service.initial wA udA).map fun p =>
        "0x" ++ Sha256.sha256hex (p.2.credential.id ++ p.2.credential.credentialHash ++
          toString p.2.credential.issuedAt)) ∧
    Service.issueCredential Service.initial wB udA =
      Service.issueCredential Service.initial wA udA :=
  ⟨(issueCommitment_deterministic Service.initial wA wB udA).1,
   (issueCommitment_deterministic Service.initial wA wB udA).2 rfl rfl⟩

/-- C3 (code bug): a proof artifact generated before revocation still
verifies after the credential is revoked.  revokeCredential has marked the
credential revoked and the cached proof invalidated, yet verifyProof reads
neither flag: it reports success instead of a credential-invalid failure. -/
theorem verifyProof_ignores_revocation :
    (Service.mapGet c3St3.credentials udA.userAddress).map Service.Credential.revoked
      = some true ∧
    (Service.mapGet c3St3.proofCache c3Art.nullifier).map Service.ProofData.invalidated
      = some true ∧
    c3Ver.2.success = true ∧
    c3Ver.2.error = none := by
  decide

/-- C5 (code bug): generateProof checks only expiry, not revocation.  On a
credential that is revoked but unexpired it succeeds and hands out a proof
artifact instead of failing with a credential-invalid error. -/
theorem generateProof_ignores_revocation :
    (Service.mapGet c5St.credentials udA.userAddress).map Service.Credential.revoked
      = some true ∧
    (Service.mapGet c5St.credentials udA.userAddress).map
      (fun c => decide (wA.nowMs / 1000 < c.expiryDate)) = some true ∧
    Service.isOkE c5Gen = true := by
  decide

/-- C4: proof generation leaves the nullifier ledger unchanged.  Every
generate-proof request fails with status 500 before the store runs — the
handler evaluates the unbound generateNullifier name and the ReferenceError
lands in the catch clause — so the shared map after the request is exactly
the map before it; and the verify endpoint never writes the map on any
input either, so a nullifier enters the map only through a successful
verify call (vacuously: no request of either endpoint ever records one). -/
theorem generateProof_no_ledger_side_effect
    (db : List (String × ProofServer.DBEntry)) (nowMs : Nat) (userId : String)
    (vdTimestamp : Nat) (publicInputs : List String)
    (proof : Option ProofServer.ServerProof) (publicSignals : List String)
    (nullifier : String) :
    (ProofServer.postGenerateProof db nowMs userId vdTimestamp publicInputs).1 = db ∧
    (ProofServer.postGenerateProof db nowMs userId vdTimestamp publicInputs).2.status = 500 ∧
    (ProofServer.postGenerateProof db nowMs userId vdTimestamp publicInputs).2.success = false ∧
    (ProofServer.postVerifyProof db proof publicSignals nullifier).1 = db := by
  refine ⟨rfl, rfl, rfl, ?_⟩
  unfold ProofServer.postVerifyProof
  split
  · rfl
  · split
    · rfl
    · rfl
